import Mathlib

/-!
Shallow embedding of `Result.hpp` (NicolasDP/result): a `Result<R, E>` value
type built on `boost::variant<R, E>`, with the combinators `map_res`,
`map_err`, `and_then`, `or_else`, the extractors `unwrap` and `expect`, and
the early-return `TRY` macro.

C++ exceptions are modelled with the `Except` monad: every member function
that is `noexcept(false)` returns in `Except (Thrown ε ε') α`, where a thrown
object is either a `std::logic_error` (from the internal assertions), a
`boost::bad_get` (from `boost::get` on the wrong alternative), the contained
error value (thrown by `unwrap`), or the caller-supplied replacement error
(thrown by `expect`).
-/

/-- Models a thrown C++ exception object: `std::logic_error` with its message,
`boost::bad_get`, the contained error value of type `ε` thrown by `unwrap`, or
the replacement error of type `ε'` thrown by `expect`. -/
inductive Thrown (ε : Type u) (ε' : Type v) : Type (max u v) where
  | logic_error (msg : String) : Thrown ε ε'
  | bad_get : Thrown ε ε'
  | err_value (e : ε) : Thrown ε ε'
  | other_error (oe : ε') : Thrown ε ε'
  deriving DecidableEq

/-- The `Result<R, E>` data: `boost::variant<return_type, error_type>` stored
in `internal_`. The only constructors of the type are the private
`Result(R&&)` and `Result(E&&)`, reached through the static factories
`Ok` and `Err`, so a `Result` always holds exactly one of the two
alternatives. -/
inductive Result (ρ : Type u) (ε : Type v) : Type (max u v) where
  | Ok (value : ρ) : Result ρ ε
  | Err (error : ε) : Result ρ ε
  deriving DecidableEq

/-- Models `internal_.which()`: 0 when the variant holds the first alternative
(the `return_type`), 1 when it holds the second (the `error_type`). -/
def Result.which : Result ρ ε → Nat
  | .Ok _ => 0
  | .Err _ => 1

/-- Models `internal_.empty()`: by the boost variant never-empty guarantee a
variant constructed from one of its alternatives is not empty. -/
def Result.internal_empty : Result ρ ε → Bool
  | .Ok _ => false
  | .Err _ => false

/-- `is_ok(): internal_.which() == 0`. -/
def Result.is_ok (r : Result ρ ε) : Bool := r.which == 0

/-- `is_error(): internal_.which() == 1`. -/
def Result.is_error (r : Result ρ ε) : Bool := r.which == 1

/-- `expect_valid_state()`: throws `std::logic_error` when the internal
variant is empty. -/
def Result.expect_valid_state (r : Result ρ ε) : Except (Thrown ε ε') Unit :=
  if r.internal_empty then
    throw (Thrown.logic_error "this object is not in a valid state")
  else pure ()

/-- `expect_return()`: throws `std::logic_error` when the Result holds an
error. -/
def Result.expect_return (r : Result ρ ε) : Except (Thrown ε ε') Unit :=
  if r.is_error then
    throw (Thrown.logic_error "attempt to read the return of an error")
  else pure ()

/-- `expect_error()`: throws `std::logic_error` when the Result holds a
value. -/
def Result.expect_error (r : Result ρ ε) : Except (Thrown ε ε') Unit :=
  if r.is_ok then
    throw (Thrown.logic_error "attempt to read the error of a valid result")
  else pure ()

/-- Models `boost::get<return_type>(internal_)`: the held value when the
variant holds the first alternative, otherwise throws `boost::bad_get`. -/
def Result.boostGetR : Result ρ ε → Except (Thrown ε ε') ρ
  | .Ok v => pure v
  | .Err _ => throw Thrown.bad_get

/-- Models `boost::get<error_type>(internal_)`. -/
def Result.boostGetE : Result ρ ε → Except (Thrown ε ε') ε
  | .Ok _ => throw Thrown.bad_get
  | .Err e => pure e

/-- `get_return()`: asserts the valid state and the Ok alternative, then
returns a copy of the success payload (the method is `const` and returns by
value). -/
def Result.get_return (r : Result ρ ε) : Except (Thrown ε ε') ρ := do
  r.expect_valid_state
  r.expect_return
  r.boostGetR

/-- `get_error()`: asserts the valid state and the Err alternative, then
returns a copy of the error payload. -/
def Result.get_error (r : Result ρ ε) : Except (Thrown ε ε') ε := do
  r.expect_valid_state
  r.expect_error
  r.boostGetE

/-- `map_res(f)`: if the Result is an error, rewrap the error; otherwise
rewrap `f` applied to the payload. -/
def Result.map_res (r : Result ρ ε) (f : ρ → ρ') :
    Except (Thrown ε ε') (Result ρ' ε) :=
  if r.is_error then do
    let e ← r.get_error
    pure (Result.Err e)
  else do
    let v ← r.get_return
    pure (Result.Ok (f v))

/-- `map_err(f)`: if the Result is ok, rewrap the value; otherwise rewrap `f`
applied to the error. -/
def Result.map_err (r : Result ρ ε) (f : ε → ε2) :
    Except (Thrown ε ε') (Result ρ ε2) :=
  if r.is_ok then do
    let v ← r.get_return
    pure (Result.Ok v)
  else do
    let e ← r.get_error
    pure (Result.Err (f e))

/-- `and_then(f)`: if the Result is an error, rewrap the error; otherwise
return `f` applied to the payload directly. -/
def Result.and_then (r : Result ρ ε) (f : ρ → Result ρ' ε) :
    Except (Thrown ε ε') (Result ρ' ε) :=
  if r.is_error then do
    let e ← r.get_error
    pure (Result.Err e)
  else do
    let v ← r.get_return
    pure (f v)

/-- `or_else(f)`: if the Result is ok, rewrap the value; otherwise the source
calls `f(this->get_return())` — the success accessor — on the error branch. -/
def Result.or_else (r : Result ρ ε) (f : ρ → Result ρ ε) :
    Except (Thrown ε ε') (Result ρ ε) :=
  if r.is_ok then do
    let v ← r.get_return
    pure (Result.Ok v)
  else do
    let v ← r.get_return
    pure (f v)

/-- `unwrap()`: if the Result is an error, throw the contained error value;
otherwise return the success payload. -/
def Result.unwrap (r : Result ρ ε) : Except (Thrown ε ε') ρ :=
  if r.is_error then do
    let e ← r.get_error
    throw (Thrown.err_value e)
  else r.get_return

/-- `expect(err)`: asserts the valid state; if the Result is an error, throw
the caller-supplied replacement error; otherwise return the success
payload. -/
def Result.expect (r : Result ρ ε) (oe : ε') : Except (Thrown ε ε') ρ := do
  r.expect_valid_state
  if r.is_error then throw (Thrown.other_error oe)
  else r.get_return

/-- The `TRY(expr)` macro: bind the Result of `expr` to `res`; if
`res.is_error()` the enclosing function returns `res` itself; otherwise the
expression evaluates to `res.unwrap()` and the rest of the function `k`
runs with that value. -/
def TRY (res : Result ρ ε) (k : ρ → Except (Thrown ε ε') (Result ρ ε)) :
    Except (Thrown ε ε') (Result ρ ε) :=
  if res.is_error then pure res
  else do
    let v ← res.unwrap
    k v

/-- A function made of two fallible steps written with the expansion of the
`TRY` macro, where each step may also append entries to an effect log:
`auto res = step1(); if (res.is_error()) return res; res.unwrap()` and then
the second step runs on the unwrapped value. -/
def twoStepTRY (step1 : List String → Result ρ ε × List String)
    (step2 : ρ → List String → Result ρ ε × List String)
    (log : List String) : Except (Thrown ε ε') (Result ρ ε × List String) :=
  let p := step1 log
  if p.1.is_error then pure (p.1, p.2)
  else do
    let v ← p.1.unwrap
    pure (step2 v p.2)

/- State-threading versions, for the frame property: each member function is
modelled as returning its value together with the state of `*this` after the
call. `get_return` and `get_error` are `const`-qualified and return
`boost::get` results by value (copies), so the object state after the call is
the state before it; the other operations below only call these `const`
members on `*this`. -/

/-- `get_return()` as a state-threading call: `const` method returning a copy,
so the post-call object state is the pre-call state. -/
def Result.get_return_st (r : Result ρ ε) :
    Except (Thrown ε ε') (ρ × Result ρ ε) := do
  let v ← r.get_return
  pure (v, r)

/-- `get_error()` as a state-threading call. -/
def Result.get_error_st (r : Result ρ ε) :
    Except (Thrown ε ε') (ε × Result ρ ε) := do
  let e ← r.get_error
  pure (e, r)

/-- `map_res(f)` with the state of `*this` threaded through its body. -/
def Result.map_res_st (r : Result ρ ε) (f : ρ → ρ') :
    Except (Thrown ε ε') (Result ρ' ε × Result ρ ε) :=
  if r.is_error then do
    let (e, r1) ← r.get_error_st
    pure (Result.Err e, r1)
  else do
    let (v, r1) ← r.get_return_st
    pure (Result.Ok (f v), r1)

/-- `map_err(f)` with the state of `*this` threaded through its body. -/
def Result.map_err_st (r : Result ρ ε) (f : ε → ε2) :
    Except (Thrown ε ε') (Result ρ ε2 × Result ρ ε) :=
  if r.is_ok then do
    let (v, r1) ← r.get_return_st
    pure (Result.Ok v, r1)
  else do
    let (e, r1) ← r.get_error_st
    pure (Result.Err (f e), r1)

/-- `and_then(f)` with the state of `*this` threaded through its body. -/
def Result.and_then_st (r : Result ρ ε) (f : ρ → Result ρ' ε) :
    Except (Thrown ε ε') (Result ρ' ε × Result ρ ε) :=
  if r.is_error then do
    let (e, r1) ← r.get_error_st
    pure (Result.Err e, r1)
  else do
    let (v, r1) ← r.get_return_st
    pure (f v, r1)

/-- `unwrap()` with the state of `*this` threaded through its body. -/
def Result.unwrap_st (r : Result ρ ε) :
    Except (Thrown ε ε') (ρ × Result ρ ε) :=
  if r.is_error then do
    let (e, _) ← r.get_error_st
    throw (Thrown.err_value e)
  else r.get_return_st

/-- `expect(err)` with the state of `*this` threaded through its body. -/
def Result.expect_st (r : Result ρ ε) (oe : ε') :
    Except (Thrown ε ε') (ρ × Result ρ ε) := do
  r.expect_valid_state
  if r.is_error then throw (Thrown.other_error oe)
  else r.get_return_st

/- Basic evaluation lemmas. -/

theorem Result.is_ok_Ok (v : ρ) : (Result.Ok v : Result ρ ε).is_ok = true := rfl

theorem Result.is_ok_Err (e : ε) : (Result.Err e : Result ρ ε).is_ok = false := rfl

theorem Result.is_error_Ok (v : ρ) : (Result.Ok v : Result ρ ε).is_error = false := rfl

theorem Result.is_error_Err (e : ε) : (Result.Err e : Result ρ ε).is_error = true := rfl

theorem Result.get_return_Ok (v : ρ) :
    (Result.Ok v : Result ρ ε).get_return = (pure v : Except (Thrown ε ε') ρ) := rfl

theorem Result.get_return_Err (e : ε) :
    (Result.Err e : Result ρ ε).get_return
      = (Except.error (Thrown.logic_error "attempt to read the return of an error")
          : Except (Thrown ε ε') ρ) := rfl

theorem Result.get_error_Ok (v : ρ) :
    (Result.Ok v : Result ρ ε).get_error
      = (Except.error (Thrown.logic_error "attempt to read the error of a valid result")
          : Except (Thrown ε ε') ε) := rfl

theorem Result.get_error_Err (e : ε) :
    (Result.Err e : Result ρ ε).get_error = (pure e : Except (Thrown ε ε') ε) := rfl

/- Claim theorems. -/

/-- C3: for every value v, `Ok(v).unwrap()` returns v and raises no failure;
for every error e, `Err(e).unwrap()` raises a failure carrying exactly the
error value e, unchanged. -/
theorem unwrap_spec (ρ ε ε' : Type) (v : ρ) (e : ε) :
    (Result.Ok v : Result ρ ε).unwrap = (pure v : Except (Thrown ε ε') ρ) ∧
    (Result.Err e : Result ρ ε).unwrap
      = (Except.error (Thrown.err_value e) : Except (Thrown ε ε') ρ) :=
  ⟨rfl, rfl⟩

/-- C4: for every value v and replacement error oe, `Ok(v).expect(oe)` returns
v; for every error e and replacement error oe, `Err(e).expect(oe)` raises a
failure carrying exactly oe — the original error e is discarded, not
raised. -/
theorem expect_spec (ρ ε ε' : Type) (v : ρ) (e : ε) (oe : ε') :
    (Result.Ok v : Result ρ ε).expect oe = (pure v : Except (Thrown ε ε') ρ) ∧
    (Result.Err e : Result ρ ε).expect oe
      = (Except.error (Thrown.other_error oe) : Except (Thrown ε ε') ρ) :=
  ⟨rfl, rfl⟩

/-- C5: for every value v and function f, `Ok(v).map_res(f)` equals
`Ok(f(v))`; for every error e, `Err(e).map_res(f)` equals `Err(e)` for every
f — the right-hand side does not mention f, so f is never invoked. -/
theorem map_res_spec (ρ ε ε' ρ' : Type) (v : ρ) (e : ε) (f : ρ → ρ') :
    (Result.Ok v : Result ρ ε).map_res f
      = (pure (Result.Ok (f v)) : Except (Thrown ε ε') (Result ρ' ε)) ∧
    (Result.Err e : Result ρ ε).map_res f
      = (pure (Result.Err e) : Except (Thrown ε ε') (Result ρ' ε)) :=
  ⟨rfl, rfl⟩

/-- C6: for every error e and function g, `Err(e).map_err(g)` equals
`Err(g(e))`; for every value v, `Ok(v).map_err(g)` equals `Ok(v)` for every
g — the right-hand side does not mention g, so g is never invoked. -/
theorem map_err_spec (ρ ε ε' ε2 : Type) (v : ρ) (e : ε) (g : ε → ε2) :
    (Result.Err e : Result ρ ε).map_err g
      = (pure (Result.Err (g e)) : Except (Thrown ε ε') (Result ρ ε2)) ∧
    (Result.Ok v : Result ρ ε).map_err g
      = (pure (Result.Ok v) : Except (Thrown ε ε') (Result ρ ε2)) :=
  ⟨rfl, rfl⟩

/-- C7: for every value v, `Ok(v).and_then(f)` equals `f(v)` directly; for
every error e, `Err(e).and_then(f)` equals `Err(e)` for every f (f never
invoked); and the chain `r.and_then(f1).and_then(f2)` short-circuits at the
first Err: starting from `Err(e)` neither function runs, and starting from
`Ok(w)` with `f1 w = Err(e)` the chain yields `Err(e)` with f2 never
invoked. -/
theorem and_then_spec (ρ ε ε' ρ' : Type) (v w : ρ) (e : ε)
    (f : ρ → Result ρ' ε) (f1 f2 : ρ → Result ρ ε)
    (h : f1 w = Result.Err e) :
    (Result.Ok v : Result ρ ε).and_then f
      = (pure (f v) : Except (Thrown ε ε') (Result ρ' ε)) ∧
    (Result.Err e : Result ρ ε).and_then f
      = (pure (Result.Err e) : Except (Thrown ε ε') (Result ρ' ε)) ∧
    ((Result.Err e : Result ρ ε).and_then f1 >>= fun r1 => r1.and_then f2)
      = (pure (Result.Err e) : Except (Thrown ε ε') (Result ρ ε)) ∧
    ((Result.Ok w : Result ρ ε).and_then f1 >>= fun r1 => r1.and_then f2)
      = (pure (Result.Err e) : Except (Thrown ε ε') (Result ρ ε)) := by
  refine ⟨rfl, rfl, rfl, ?_⟩
  rw [show (Result.Ok w : Result ρ ε).and_then f1
      = (pure (f1 w) : Except (Thrown ε ε') (Result ρ ε)) from rfl, h]
  rfl

/-- C7 witness: the short-circuit clause instantiated at Ok 3 with
`f1 = fun x => Err 9`. -/
theorem and_then_spec_witness :
    (fun _ : Nat => (Result.Err 9 : Result Nat Nat)) 3
      = (Result.Err 9 : Result Nat Nat) ∧
    ((Result.Ok 2 : Result Nat Nat).and_then (fun x => Result.Ok x)
        = (pure (Result.Ok 2) : Except (Thrown Nat Nat) (Result Nat Nat)) ∧
     (Result.Err 9 : Result Nat Nat).and_then (fun x => Result.Ok x)
        = (pure (Result.Err 9) : Except (Thrown Nat Nat) (Result Nat Nat)) ∧
     ((Result.Err 9 : Result Nat Nat).and_then (fun _ => Result.Err 9)
          >>= fun r1 => r1.and_then (fun x => Result.Ok x))
        = (pure (Result.Err 9) : Except (Thrown Nat Nat) (Result Nat Nat)) ∧
     ((Result.Ok 3 : Result Nat Nat).and_then (fun _ => Result.Err 9)
          >>= fun r1 => r1.and_then (fun x => Result.Ok x))
        = (pure (Result.Err 9) : Except (Thrown Nat Nat) (Result Nat Nat))) :=
  ⟨rfl, and_then_spec Nat Nat Nat Nat 2 3 9 (fun x => Result.Ok x)
    (fun _ => Result.Err 9) (fun x => Result.Ok x) rfl⟩

/-- C9: for every live Result exactly one of `is_ok` and `is_error` holds —
`Ok(v)` is ok and not an error, `Err(e)` is an error and not ok, every
Result satisfies `is_ok = !is_error`, and the internal variant is never
empty; since every Result any operation produces is again of this type, the
consistency is preserved by every operation. -/
theorem tag_invariants (ρ ε : Type) (v : ρ) (e : ε) (r : Result ρ ε) :
    (Result.Ok v : Result ρ ε).is_ok = true ∧
    (Result.Ok v : Result ρ ε).is_error = false ∧
    (Result.Err e : Result ρ ε).is_error = true ∧
    (Result.Err e : Result ρ ε).is_ok = false ∧
    r.is_ok = !r.is_error ∧
    r.internal_empty = false := by
  refine ⟨rfl, rfl, rfl, rfl, ?_, ?_⟩ <;> cases r <;> rfl

/-- C1 counterexample: at `r = Err 5` and `f = fun w => Ok (w + 1)`, the call
`r.or_else(f)` does not invoke f with a value obtained from `get_return` —
the success accessor throws `std::logic_error` on an Err Result, so the call
propagates that exception and never produces `f`'s Result. -/
theorem or_else_err_counterexample :
    (Result.Err 5 : Result Nat Nat).or_else (fun w => Result.Ok (w + 1))
      = (Except.error (Thrown.logic_error "attempt to read the return of an error")
          : Except (Thrown Nat Nat) (Result Nat Nat)) ∧
    ¬ ∃ v : Nat,
      (Result.Err 5 : Result Nat Nat).or_else (fun w => Result.Ok (w + 1))
        = (Except.ok (Result.Ok (v + 1)) : Except (Thrown Nat Nat) (Result Nat Nat)) := by
  refine ⟨rfl, ?_⟩
  rintro ⟨v, h⟩
  rw [show (Result.Err 5 : Result Nat Nat).or_else (fun w => Result.Ok (w + 1))
      = (Except.error (Thrown.logic_error "attempt to read the return of an error")
          : Except (Thrown Nat Nat) (Result Nat Nat)) from rfl] at h
  exact Except.noConfusion h

/-- C1 (amended): if r is `Ok(v)`, `or_else(f)` rewraps the value as `Ok(v)`
without invoking f; if r is Err, `or_else(f)` calls the success accessor
`get_return`, which throws `std::logic_error` ("attempt to read the return of
an error"), so f is never invoked and no alternative Result is produced. -/
theorem or_else_spec (ρ ε ε' : Type) (v : ρ) (e : ε) (f : ρ → Result ρ ε) :
    (Result.Ok v : Result ρ ε).or_else f
      = (pure (Result.Ok v) : Except (Thrown ε ε') (Result ρ ε)) ∧
    (Result.Err e : Result ρ ε).or_else f
      = (Except.error (Thrown.logic_error "attempt to read the return of an error")
          : Except (Thrown ε ε') (Result ρ ε)) :=
  ⟨rfl, rfl⟩

/-- C2: at the failing input `r = Err 7`, `f = fun v => Ok v`, the combinator
`or_else` raises an exception of its own: the `std::logic_error` thrown by
its call to the success accessor `get_return`, not a forwarded payload. -/
theorem or_else_raises_own_logic_error :
    (Result.Err 7 : Result Nat Nat).or_else (fun v => Result.Ok v)
      = (Except.error (Thrown.logic_error "attempt to read the return of an error")
          : Except (Thrown Nat Nat) (Result Nat Nat)) := rfl

/-- C8: the TRY idiom — on an Err Result the enclosing function returns that
same Err and the continuation never runs; on an Ok Result the expression
evaluates to the unwrapped value and the continuation runs with it; and in a
function of two fallible steps whose first step returns Err, the function
returns that Err with the effect log as the first step left it, for every
second step — so the second step's side effects never occur. -/
theorem try_spec (ρ ε ε' : Type) (e : ε) (v : ρ)
    (k : ρ → Except (Thrown ε ε') (Result ρ ε))
    (step1 : List String → Result ρ ε × List String)
    (step2 : ρ → List String → Result ρ ε × List String)
    (log log1 : List String)
    (h : step1 log = (Result.Err e, log1)) :
    TRY (Result.Err e : Result ρ ε) k
      = (pure (Result.Err e) : Except (Thrown ε ε') (Result ρ ε)) ∧
    TRY (Result.Ok v : Result ρ ε) k = k v ∧
    twoStepTRY step1 step2 log
      = (pure (Result.Err e, log1)
          : Except (Thrown ε ε') (Result ρ ε × List String)) := by
  refine ⟨rfl, rfl, ?_⟩
  simp only [twoStepTRY, h]
  rfl

/-- C8 witness: the TRY clauses at `Err 1` and `Ok 0`, and the two-step
function at a first step that returns `Err 1` after logging "s1": the result
is that Err with only "s1" logged, the second step's "s2" entry absent. -/
theorem try_spec_witness :
    (fun log => ((Result.Err 1 : Result Nat Nat), log ++ ["s1"])) ([] : List String)
      = ((Result.Err 1 : Result Nat Nat), ["s1"]) ∧
    (TRY (Result.Err 1 : Result Nat Nat) (fun w => pure (Result.Ok w))
        = (pure (Result.Err 1) : Except (Thrown Nat Nat) (Result Nat Nat)) ∧
     TRY (Result.Ok 0 : Result Nat Nat) (fun w => pure (Result.Ok w))
        = (pure (Result.Ok 0) : Except (Thrown Nat Nat) (Result Nat Nat)) ∧
     twoStepTRY (fun log => ((Result.Err 1 : Result Nat Nat), log ++ ["s1"]))
        (fun w log => (Result.Ok w, log ++ ["s2"])) []
        = (pure (Result.Err 1, ["s1"])
            : Except (Thrown Nat Nat) (Result Nat Nat × List String))) :=
  ⟨rfl, try_spec Nat Nat Nat 1 0 (fun w => pure (Result.Ok w))
    (fun log => (Result.Err 1, log ++ ["s1"]))
    (fun w log => (Result.Ok w, log ++ ["s2"])) [] ["s1"] rfl⟩

/-- C10: each nominally consuming operation, modelled with the state of
`*this` threaded through its body, agrees with the plain semantics on its
value and leaves the object state exactly as it was — whenever the operation
succeeds the post-call state is the original Result, tag and payload intact,
so it can be queried and re-consumed with identical outcomes; this is because
the private getters are `const` accessors returning a copy of the payload
rather than moving it out. -/
theorem frame_spec (ρ ε ε' ρ' ε2 : Type) (r : Result ρ ε) (oe : ε')
    (f : ρ → ρ') (g : ε → ε2) (k : ρ → Result ρ' ε) :
    r.unwrap_st = (r.unwrap : Except (Thrown ε ε') ρ).map (fun x => (x, r)) ∧
    r.expect_st oe = (r.expect oe : Except (Thrown ε ε') ρ).map (fun x => (x, r)) ∧
    r.map_res_st f
      = (r.map_res f : Except (Thrown ε ε') (Result ρ' ε)).map (fun x => (x, r)) ∧
    r.map_err_st g
      = (r.map_err g : Except (Thrown ε ε') (Result ρ ε2)).map (fun x => (x, r)) ∧
    r.and_then_st k
      = (r.and_then k : Except (Thrown ε ε') (Result ρ' ε)).map (fun x => (x, r)) := by
  cases r <;> exact ⟨rfl, rfl, rfl, rfl, rfl⟩
